import Mathlib

/-!
Shallow embedding of the alert escalation and delivery subsystem
(`Hazard_Detection/alert_system.py`, class `AlertManager` and its data
model) with proofs of its specified properties.

Modelling conventions:
* Python `datetime` values are integers counting seconds; `strftime('%H:%M')`
  becomes `fmtHM`, and `datetime` subtraction becomes integer subtraction.
* Python dictionaries keyed by strings become association lists with
  first-match lookup; insertion overwrites an existing key in place and
  otherwise appends, matching insertion-ordered `dict` semantics.
* Python objects are shared by reference between `active_alerts`,
  `alert_history` and the delivery queue, so the manager state carries an
  explicit object store (`store : List Alert`); the active set, the history
  and the queue hold indices (references) into it.
* Channel senders perform I/O and may raise; they are modelled as an
  environment mapping each channel to an optional sender returning a
  `SendResult` (normal return or a raised exception), and `deliver_alert`
  returns the chronological log of what happened per (recipient, channel).
-/

/-- Severity levels, `class AlertSeverity(Enum)`: LOW=1, MEDIUM=2, HIGH=3,
CRITICAL=4. -/
inductive AlertSeverity where
  | LOW
  | MEDIUM
  | HIGH
  | CRITICAL
deriving DecidableEq

/-- `AlertSeverity.value`: the numeric value of the Python enum member. -/
def AlertSeverity.value : AlertSeverity → Nat
  | .LOW => 1
  | .MEDIUM => 2
  | .HIGH => 3
  | .CRITICAL => 4

/-- The Python enum constructor `AlertSeverity(n)`: `some` member with that
value, `none` where Python would raise `ValueError`. -/
def AlertSeverity.fromValue : Nat → Option AlertSeverity
  | 1 => some .LOW
  | 2 => some .MEDIUM
  | 3 => some .HIGH
  | 4 => some .CRITICAL
  | _ => none

/-- Delivery channels, `class AlertChannel(Enum)`. -/
inductive AlertChannel where
  | EMAIL
  | SMS
  | PUSH
  | WEBHOOK
  | SLACK
  | DISCORD
  | TELEGRAM
  | PAGERDUTY
  | CONSOLE
deriving DecidableEq

/-- Values stored in an alert's open `metadata` dict. The escalation code
stores `True` under `'escalated'` and integers under `'escalation_count'`. -/
inductive MetaVal where
  | bool (b : Bool)
  | int (n : Int)
  | str (s : String)
deriving DecidableEq

/-- First-match lookup in a string-keyed association list
(Python `d[k]` / `d.get(k)`). -/
def dictGet {β : Type} (d : List (String × β)) (k : String) : Option β :=
  match d with
  | [] => none
  | p :: rest => if p.1 = k then some p.2 else dictGet rest k

/-- Python `d[k] = v`: overwrite the existing binding in place, else append
(insertion-ordered dict semantics). -/
def dictSet {β : Type} (d : List (String × β)) (k : String) (v : β) :
    List (String × β) :=
  if (dictGet d k).isSome then
    d.map (fun p => if p.1 = k then (k, v) else p)
  else
    d ++ [(k, v)]

/-- Python `del d[k]`: drop every binding of the key. -/
def dictRemove {β : Type} (d : List (String × β)) (k : String) :
    List (String × β) :=
  d.filter (fun p => p.1 ≠ k)

/-- Number of bindings of a key in an association list. -/
def dictCount {β : Type} (d : List (String × β)) (k : String) : Nat :=
  (d.filter (fun p => p.1 = k)).length

/-- Lexicographic comparison of character lists by code point, as Python
compares strings. -/
def lexLe : List Char → List Char → Bool
  | [], _ => true
  | _ :: _, [] => false
  | a :: as, b :: bs =>
      if a.val.toNat < b.val.toNat then true
      else if b.val.toNat < a.val.toNat then false
      else lexLe as bs

/-- Python string `<=` (lexicographic by code point). -/
def strLe (a b : String) : Bool := lexLe a.data b.data

/-- Zero-padded two-digit decimal rendering, as in `strftime` fields. -/
def pad2 (n : Nat) : String := if n < 10 then "0" ++ toString n else toString n

/-- `current_time.strftime('%H:%M')` for a timestamp in seconds. -/
def fmtHM (t : Int) : String :=
  let s := (t.emod 86400).toNat
  pad2 (s / 3600) ++ ":" ++ pad2 (s % 3600 / 60)

/-- The recipient's optional active-hours window,
`{'start': 'HH:MM', 'end': 'HH:MM'}`. -/
structure ActiveHours where
  start : String
  stop : String
deriving DecidableEq

/-- `@dataclass AlertRecipient`: recipient profile. Contact fields that the
control flow never reads (email, phone, webhook url, ...) are kept as the
optional strings they are in the source. -/
structure AlertRecipient where
  name : String
  channels : List AlertChannel
  email : Option String := none
  phone : Option String := none
  webhook_url : Option String := none
  slack_channel : Option String := none
  telegram_chat_id : Option String := none
  severity_threshold : AlertSeverity := .LOW
  active_hours : Option ActiveHours := none
deriving DecidableEq

/-- `AlertRecipient.should_receive_alert`: below-threshold severities are
rejected; then, when an active-hours window is configured, the current
time of day formatted `'%H:%M'` must lie lexically in `[start, end]`. -/
def AlertRecipient.should_receive_alert (r : AlertRecipient)
    (severity : AlertSeverity) (current_time : Int) : Bool :=
  if severity.value < r.severity_threshold.value then false
  else
    match r.active_hours with
    | some w =>
        if !(strLe w.start (fmtHM current_time) &&
             strLe (fmtHM current_time) w.stop) then false
        else true
    | none => true

/-- `@dataclass Alert`: one alert message. `location` is an opaque optional
mapping the alert logic never inspects. -/
structure Alert where
  alert_id : String
  hazard_id : String
  severity : AlertSeverity
  title : String
  message : String
  timestamp : Int
  location : Option (List (String × String)) := none
  image_path : Option String := none
  metadata : List (String × MetaVal) := []
  acknowledged : Bool := false
  acknowledged_by : Option String := none
  acknowledged_at : Option Int := none
deriving DecidableEq

/-- Python `metadata.get('escalation_count', 0)` coerced to an integer the
way Python arithmetic would coerce it (`True + 1 == 2`). -/
def metaCountVal (m : List (String × MetaVal)) : Int :=
  match dictGet m "escalation_count" with
  | some (.int n) => n
  | some (.bool b) => if b then 1 else 0
  | _ => 0

/-- The per-alert mutation performed by `AlertManager._escalate_alert`:
bump severity by one enum level unless already CRITICAL, set
`metadata['escalated'] = True`, increment `metadata['escalation_count']`
(defaulting a missing counter to 0). -/
def escalateAlert (a : Alert) : Alert :=
  let sev :=
    if a.severity ≠ AlertSeverity.CRITICAL then
      (AlertSeverity.fromValue (a.severity.value + 1)).getD a.severity
    else a.severity
  let m1 := dictSet a.metadata "escalated" (MetaVal.bool true)
  let m2 := dictSet m1 "escalation_count" (MetaVal.int (metaCountVal m1 + 1))
  { a with severity := sev, metadata := m2 }

/-- The `escalation_config` dict built in `AlertManager.__init__`. -/
structure EscalationConfig where
  enabled : Bool
  timeout : Int
  max_escalations : Nat
deriving DecidableEq

/-- State of one `AlertManager`. `store` is the object heap; `active_alerts`
maps alert ids to references, and `alert_history` / `alert_queue` are lists
of references, so that history shares the mutable objects with the active
set exactly as the Python lists share them. -/
structure AlertManager where
  recipients : List AlertRecipient
  store : List Alert
  active_alerts : List (String × Nat)
  alert_history : List Nat
  alert_queue : List Nat
  escalation_config : EscalationConfig
deriving DecidableEq

namespace AlertManager

/-- `AlertManager.__init__`: empty directory, empty alert state, default
escalation configuration (enabled, 5-minute timeout, max 3). -/
def init : AlertManager :=
  { recipients := []
    store := []
    active_alerts := []
    alert_history := []
    alert_queue := []
    escalation_config := { enabled := true, timeout := 300, max_escalations := 3 } }

/-- `AlertManager.add_recipient`. -/
def add_recipient (st : AlertManager) (r : AlertRecipient) : AlertManager :=
  { st with recipients := st.recipients ++ [r] }

/-- `AlertManager.send_alert`: register as active under `alert.alert_id`,
enqueue for delivery, append to history. A fresh store cell is allocated
for the submitted object. -/
def send_alert (st : AlertManager) (a : Alert) : AlertManager :=
  { st with
      store := st.store ++ [a]
      active_alerts := dictSet st.active_alerts a.alert_id st.store.length
      alert_queue := st.alert_queue ++ [st.store.length]
      alert_history := st.alert_history ++ [st.store.length] }

/-- `AlertManager.acknowledge_alert`: when the id is active, set the three
acknowledgement fields on the shared object and delete the id from the
active set; otherwise do nothing. `now` is `datetime.now()`. -/
def acknowledge_alert (st : AlertManager) (alert_id : String)
    (acknowledged_by : String) (now : Int) : AlertManager :=
  match dictGet st.active_alerts alert_id with
  | none => st
  | some r =>
      match st.store[r]? with
      | none => st
      | some a =>
          { st with
              store := st.store.set r
                { a with
                    acknowledged := true
                    acknowledged_by := some acknowledged_by
                    acknowledged_at := some now }
              active_alerts := dictRemove st.active_alerts alert_id }

/-- `AlertManager._escalate_alert` on the manager state: mutate the shared
object through its reference and re-enqueue that same reference. -/
def escalate_alert (st : AlertManager) (r : Nat) : AlertManager :=
  match st.store[r]? with
  | none => st
  | some a =>
      { st with
          store := st.store.set r (escalateAlert a)
          alert_queue := st.alert_queue ++ [r] }

/-- `AlertManager._check_escalation`, the escalation-timer callback: a
no-op unless the id is still active and `now - alert.timestamp` has reached
the configured timeout, in which case the alert is escalated. -/
def check_escalation (st : AlertManager) (alert_id : String) (now : Int) :
    AlertManager :=
  match dictGet st.active_alerts alert_id with
  | none => st
  | some r =>
      match st.store[r]? with
      | none => st
      | some a =>
          if st.escalation_config.timeout ≤ now - a.timestamp then
            escalate_alert st r
          else st

/-- One iteration of the `_process_alerts` worker's state change: dequeue
the front reference (delivery itself only performs sends, see
`deliver_alert`). -/
def process_one (st : AlertManager) : AlertManager :=
  match st.alert_queue with
  | [] => st
  | _ :: rest => { st with alert_queue := rest }

/-- The alert objects of the history, dereferenced through the store. -/
def historyAlerts (st : AlertManager) : List Alert :=
  st.alert_history.filterMap (fun r => st.store[r]?)

/-- `AlertManager._calculate_avg_ack_time` on a history of alert objects:
mean of `(acknowledged_at - timestamp)` in minutes over the alerts that are
acknowledged and carry an acknowledgement time, and `0.0` for an empty
collection. -/
def calculate_avg_ack_time (history : List Alert) : ℚ :=
  let ack_times := history.filterMap (fun a =>
    if a.acknowledged then
      match a.acknowledged_at with
      | some t => some (((t - a.timestamp : Int) : ℚ) / 60)
      | none => none
    else none)
  if ack_times = [] then 0 else ack_times.sum / (ack_times.length : ℚ)

/-- The record returned by `AlertManager.get_alert_statistics`. -/
structure Statistics where
  total_alerts : Nat
  active_alerts : Nat
  acknowledged_alerts : Nat
  by_severity : AlertSeverity → Nat
  average_acknowledgment_time : ℚ

/-- `AlertManager.get_alert_statistics`. -/
def get_alert_statistics (st : AlertManager) : Statistics :=
  { total_alerts := st.alert_history.length
    active_alerts := st.active_alerts.length
    acknowledged_alerts := ((historyAlerts st).filter (fun a => a.acknowledged)).length
    by_severity := fun s =>
      ((historyAlerts st).filter (fun a => a.severity = s)).length
    average_acknowledgment_time := calculate_avg_ack_time (historyAlerts st) }

end AlertManager

/-- Result of invoking one channel sender: normal return, or a raised
exception with its message. -/
inductive SendResult where
  | ok
  | raised (msg : String)
deriving DecidableEq

/-- The `channel_handlers` environment: each channel optionally maps to a
sender `(alert, recipient) -> may raise`. -/
def Handlers : Type := AlertChannel → Option (Alert → AlertRecipient → SendResult)

/-- One observable outcome per attempted (recipient, channel) pair during
delivery. -/
inductive DeliveryEvent where
  | sent (rname : String) (ch : AlertChannel)
  | sendFailed (rname : String) (ch : AlertChannel)
  | noHandler (rname : String) (ch : AlertChannel)
deriving DecidableEq

/-- The (recipient name, channel) pair an event is about. -/
def DeliveryEvent.key : DeliveryEvent → String × AlertChannel
  | .sent n ch => (n, ch)
  | .sendFailed n ch => (n, ch)
  | .noHandler n ch => (n, ch)

/-- The body of the per-channel `try`/`except` in
`AlertManager._deliver_alert`: look the handler up, invoke it when present
(a raised exception is caught and logged as a failure), log a warning when
absent. Total: no outcome escapes the `except`. -/
def attemptChannel (hs : Handlers) (alert : Alert) (r : AlertRecipient)
    (ch : AlertChannel) : DeliveryEvent :=
  match hs ch with
  | some h =>
      match h alert r with
      | .ok => .sent r.name ch
      | .raised _ => .sendFailed r.name ch
  | none => .noHandler r.name ch

/-- One recipient's portion of `_deliver_alert`: nothing when the recipient
is ineligible, otherwise one attempt per configured channel in stored
order. -/
def deliverToRecipient (hs : Handlers) (alert : Alert) (current_time : Int)
    (r : AlertRecipient) : List DeliveryEvent :=
  if r.should_receive_alert alert.severity current_time then
    r.channels.map (attemptChannel hs alert r)
  else []

/-- `AlertManager._deliver_alert`: iterate the recipient directory in
order, fanning out over each eligible recipient's channels. -/
def deliver_alert (hs : Handlers) (recipients : List AlertRecipient)
    (alert : Alert) (current_time : Int) : List DeliveryEvent :=
  recipients.flatMap (deliverToRecipient hs alert current_time)

namespace AlertManager

/-- One externally triggerable operation on a manager, as invoked by
callers, the worker thread, and the escalation timers. A submitted alert
carries the dataclass defaults for its acknowledgement state (`False`,
unset); severity bump aside, every constructor is a method of the class. -/
inductive Step : AlertManager → AlertManager → Prop where
  | add_recipient (st : AlertManager) (r : AlertRecipient) :
      Step st (st.add_recipient r)
  | send (st : AlertManager) (a : Alert) (ha : a.acknowledged = false) :
      Step st (st.send_alert a)
  | acknowledge (st : AlertManager) (alert_id who : String) (now : Int) :
      Step st (st.acknowledge_alert alert_id who now)
  | fire (st : AlertManager) (alert_id : String) (now : Int) :
      Step st (st.check_escalation alert_id now)
  | dequeue (st : AlertManager) : Step st st.process_one
  | configure (st : AlertManager) (c : EscalationConfig) :
      Step st { st with escalation_config := c }

/-- States reachable from a freshly initialized manager by any sequence of
operations. -/
def Reachable (st : AlertManager) : Prop :=
  Relation.ReflTransGen Step init st

/-- Structural invariant carried through every operation: active references
point into the store, active alerts are unacknowledged, and distinct active
ids never alias one store cell. -/
def Inv (st : AlertManager) : Prop :=
  (∀ id r, dictGet st.active_alerts id = some r → r < st.store.length) ∧
  (∀ id r a, dictGet st.active_alerts id = some r → st.store[r]? = some a →
    a.acknowledged = false) ∧
  (∀ id₁ id₂ r, dictGet st.active_alerts id₁ = some r →
    dictGet st.active_alerts id₂ = some r → id₁ = id₂)

end AlertManager

theorem dictGet_map_set_self {β : Type} (d : List (String × β)) (k : String)
    (v : β) (h : (dictGet d k).isSome) :
    dictGet (d.map (fun p => if p.1 = k then (k, v) else p)) k = some v := by
  induction d with
  | nil => simp [dictGet] at h
  | cons p rest ih =>
      by_cases hp : p.1 = k
      · simp [dictGet, hp]
      · simp only [dictGet, hp, if_false] at h
        simpa [dictGet, hp] using ih h

theorem dictGet_map_set_other {β : Type} (d : List (String × β))
    (k k' : String) (v : β) (hk : k' ≠ k) :
    dictGet (d.map (fun p => if p.1 = k then (k, v) else p)) k' =
      dictGet d k' := by
  induction d with
  | nil => rfl
  | cons p rest ih =>
      by_cases hp : p.1 = k
      · have : k ≠ k' := fun h => hk h.symm
        simp [dictGet, hp, this, ih]
      · simp [dictGet, hp, ih]

theorem dictGet_append_single_self {β : Type} (d : List (String × β))
    (k : String) (v : β) (h : dictGet d k = none) :
    dictGet (d ++ [(k, v)]) k = some v := by
  induction d with
  | nil => simp [dictGet]
  | cons p rest ih =>
      by_cases hp : p.1 = k
      · simp [dictGet, hp] at h
      · simp only [dictGet, hp, if_false] at h
        simpa [dictGet, hp] using ih h

theorem dictGet_append_single_other {β : Type} (d : List (String × β))
    (k k' : String) (v : β) (hk : k' ≠ k) :
    dictGet (d ++ [(k, v)]) k' = dictGet d k' := by
  induction d with
  | nil => simp [dictGet, Ne.symm hk]
  | cons p rest ih =>
      by_cases hp : p.1 = k'
      · simp [dictGet, hp]
      · simp [dictGet, hp, ih]

theorem dictGet_dictSet_self {β : Type} (d : List (String × β)) (k : String)
    (v : β) : dictGet (dictSet d k v) k = some v := by
  unfold dictSet
  by_cases h : (dictGet d k).isSome
  · simpa [h] using dictGet_map_set_self d k v h
  · have hnone : dictGet d k = none := by
      cases hd : dictGet d k with
      | none => rfl
      | some x => simp [hd] at h
    simpa [h] using dictGet_append_single_self d k v hnone

theorem dictGet_dictSet_other {β : Type} (d : List (String × β))
    (k k' : String) (v : β) (hk : k' ≠ k) :
    dictGet (dictSet d k v) k' = dictGet d k' := by
  unfold dictSet
  by_cases h : (dictGet d k).isSome
  · simpa [h] using dictGet_map_set_other d k k' v hk
  · simpa [h] using dictGet_append_single_other d k k' v hk

theorem dictGet_dictRemove_self {β : Type} (d : List (String × β))
    (k : String) : dictGet (dictRemove d k) k = none := by
  induction d with
  | nil => rfl
  | cons p rest ih =>
      by_cases hp : p.1 = k
      · simpa [dictRemove, hp] using ih
      · simpa [dictRemove, dictGet, hp] using ih

theorem dictRemove_cons {β : Type} (p : String × β) (d : List (String × β))
    (k : String) :
    dictRemove (p :: d) k =
      if p.1 = k then dictRemove d k else p :: dictRemove d k := by
  by_cases hp : p.1 = k <;> simp [dictRemove, List.filter_cons, hp]

theorem dictGet_dictRemove_other {β : Type} (d : List (String × β))
    (k k' : String) (hk : k' ≠ k) :
    dictGet (dictRemove d k) k' = dictGet d k' := by
  induction d with
  | nil => rfl
  | cons p rest ih =>
      rw [dictRemove_cons]
      by_cases hp : p.1 = k
      · simp [hp, dictGet, Ne.symm hk, ih]
      · simp [hp, dictGet, ih]

theorem filter_key_eq_nil_of_dictGet_none {β : Type} (d : List (String × β))
    (k : String) (h : dictGet d k = none) :
    d.filter (fun p => p.1 = k) = [] := by
  induction d with
  | nil => rfl
  | cons p rest ih =>
      by_cases hp : p.1 = k
      · simp [dictGet, hp] at h
      · simp only [dictGet, hp, if_false] at h
        simp [List.filter, hp, ih h]

theorem dictCount_dictSet_fresh {β : Type} (d : List (String × β))
    (k : String) (v : β) (h : dictGet d k = none) :
    dictCount (dictSet d k v) k = 1 := by
  have hs : (dictGet d k).isSome = false := by simp [h]
  unfold dictCount dictSet
  rw [hs]
  simp [List.filter_append, filter_key_eq_nil_of_dictGet_none d k h]

theorem lexLe_trans : ∀ (a b c : List Char),
    lexLe a b = true → lexLe b c = true → lexLe a c = true
  | [], _, _, _, _ => rfl
  | _ :: _, [], _, h1, _ => by simp [lexLe] at h1
  | _ :: _, _ :: _, [], _, h2 => by simp [lexLe] at h2
  | x :: xs, y :: ys, z :: zs, h1, h2 => by
      unfold lexLe at h1 h2 ⊢
      by_cases hxy : x.val.toNat < y.val.toNat
      · by_cases hyz : y.val.toNat < z.val.toNat
        · have : x.val.toNat < z.val.toNat := Nat.lt_trans hxy hyz
          simp [this]
        · simp only [hyz, if_false] at h2
          by_cases hzy : z.val.toNat < y.val.toNat
          · simp [hzy] at h2
          · have hyz' : y.val.toNat = z.val.toNat := Nat.le_antisymm
              (Nat.le_of_not_lt hzy) (Nat.le_of_not_lt hyz)
            have : x.val.toNat < z.val.toNat := hyz' ▸ hxy
            simp [this]
      · simp only [hxy, if_false] at h1
        by_cases hyx : y.val.toNat < x.val.toNat
        · simp [hyx] at h1
        · have hxy' : x.val.toNat = y.val.toNat := Nat.le_antisymm
            (Nat.le_of_not_lt hyx) (Nat.le_of_not_lt hxy)
          simp only [hyx, if_false] at h1
          by_cases hyz : y.val.toNat < z.val.toNat
          · have : x.val.toNat < z.val.toNat := hxy' ▸ hyz
            simp [this]
          · simp only [hyz, if_false] at h2
            by_cases hzy : z.val.toNat < y.val.toNat
            · simp [hzy] at h2
            · simp only [hzy, if_false] at h2
              have hyz' : y.val.toNat = z.val.toNat := Nat.le_antisymm
                (Nat.le_of_not_lt hzy) (Nat.le_of_not_lt hyz)
              have hxz : ¬ x.val.toNat < z.val.toNat := by
                rw [hxy', hyz'] at *; exact Nat.lt_irrefl _
              have hzx : ¬ z.val.toNat < x.val.toNat := by
                rw [hxy', hyz'] at *; exact Nat.lt_irrefl _
              simp only [hxz, hzx, if_false]
              exact lexLe_trans xs ys zs h1 h2

theorem strLe_trans (a b c : String) (h1 : strLe a b = true)
    (h2 : strLe b c = true) : strLe a c = true :=
  lexLe_trans a.data b.data c.data h1 h2

theorem lexLe_total : ∀ (a b : List Char), lexLe a b = false → lexLe b a = true
  | [], _, h => by simp [lexLe] at h
  | _ :: _, [], _ => rfl
  | x :: xs, y :: ys, h => by
      unfold lexLe at h ⊢
      by_cases hxy : x.val.toNat < y.val.toNat
      · simp [hxy] at h
      · simp only [hxy, if_false] at h
        by_cases hyx : y.val.toNat < x.val.toNat
        · simp [hyx]
        · simp only [hyx, if_false] at h
          simp only [hyx, hxy, if_false]
          exact lexLe_total xs ys h

theorem strLe_total (a b : String) (h : strLe a b = false) :
    strLe b a = true :=
  lexLe_total a.data b.data h

theorem escalateAlert_alert_id (a : Alert) :
    (escalateAlert a).alert_id = a.alert_id := rfl

theorem escalateAlert_hazard_id (a : Alert) :
    (escalateAlert a).hazard_id = a.hazard_id := rfl

theorem escalateAlert_title (a : Alert) :
    (escalateAlert a).title = a.title := rfl

theorem escalateAlert_message (a : Alert) :
    (escalateAlert a).message = a.message := rfl

theorem escalateAlert_timestamp (a : Alert) :
    (escalateAlert a).timestamp = a.timestamp := rfl

theorem escalateAlert_location (a : Alert) :
    (escalateAlert a).location = a.location := rfl

theorem escalateAlert_image_path (a : Alert) :
    (escalateAlert a).image_path = a.image_path := rfl

theorem escalateAlert_acknowledged (a : Alert) :
    (escalateAlert a).acknowledged = a.acknowledged := rfl

theorem escalateAlert_acknowledged_by (a : Alert) :
    (escalateAlert a).acknowledged_by = a.acknowledged_by := rfl

theorem escalateAlert_acknowledged_at (a : Alert) :
    (escalateAlert a).acknowledged_at = a.acknowledged_at := rfl

theorem escalateAlert_severity_of_critical (a : Alert)
    (h : a.severity = AlertSeverity.CRITICAL) :
    (escalateAlert a).severity = AlertSeverity.CRITICAL := by
  simp [escalateAlert, h]

theorem escalateAlert_severity_of_not_critical (a : Alert)
    (h : a.severity ≠ AlertSeverity.CRITICAL) :
    (escalateAlert a).severity.value = a.severity.value + 1 := by
  cases hs : a.severity
  · simp [escalateAlert, hs, AlertSeverity.value, AlertSeverity.fromValue]
  · simp [escalateAlert, hs, AlertSeverity.value, AlertSeverity.fromValue]
  · simp [escalateAlert, hs, AlertSeverity.value, AlertSeverity.fromValue]
  · exact absurd hs h

theorem metaCountVal_dictSet_escalated (m : List (String × MetaVal))
    (v : MetaVal) : metaCountVal (dictSet m "escalated" v) = metaCountVal m := by
  unfold metaCountVal
  rw [dictGet_dictSet_other _ _ _ _ (by decide)]

theorem escalateAlert_metaCount (a : Alert) :
    metaCountVal (escalateAlert a).metadata = metaCountVal a.metadata + 1 := by
  have h2 : metaCountVal (escalateAlert a).metadata
      = metaCountVal (dictSet a.metadata "escalated" (MetaVal.bool true)) + 1 := by
    show metaCountVal (dictSet _ "escalation_count" (MetaVal.int _)) = _
    unfold metaCountVal
    rw [dictGet_dictSet_self]
  rw [h2, metaCountVal_dictSet_escalated]

theorem escalateAlert_escalated_flag (a : Alert) :
    dictGet (escalateAlert a).metadata "escalated" = some (MetaVal.bool true) := by
  show dictGet (dictSet _ "escalation_count" _) "escalated" = _
  rw [dictGet_dictSet_other _ _ _ _ (by decide), dictGet_dictSet_self]

theorem inv_init : AlertManager.Inv AlertManager.init := by
  refine ⟨?_, ?_, ?_⟩
  · intro id r h
    simp [AlertManager.init, dictGet] at h
  · intro id r a h _
    simp [AlertManager.init, dictGet] at h
  · intro id₁ id₂ r h _
    simp [AlertManager.init, dictGet] at h

theorem acknowledge_alert_eq_of_not_active (st : AlertManager)
    (alert_id who : String) (now : Int)
    (h : dictGet st.active_alerts alert_id = none) :
    st.acknowledge_alert alert_id who now = st := by
  unfold AlertManager.acknowledge_alert
  split
  · rfl
  · rename_i r hr
    rw [h] at hr
    exact Option.noConfusion hr

theorem acknowledge_alert_eq_of_active (st : AlertManager)
    (alert_id who : String) (now : Int) (r : Nat) (a : Alert)
    (hr : dictGet st.active_alerts alert_id = some r)
    (ha : st.store[r]? = some a) :
    st.acknowledge_alert alert_id who now =
      { st with
          store := st.store.set r
            { a with
                acknowledged := true
                acknowledged_by := some who
                acknowledged_at := some now }
          active_alerts := dictRemove st.active_alerts alert_id } := by
  unfold AlertManager.acknowledge_alert
  split
  · rename_i h
    rw [hr] at h
    exact Option.noConfusion h
  · rename_i r' h
    rw [hr] at h
    cases Option.some.inj h
    split
    · rename_i h2
      rw [ha] at h2
      exact Option.noConfusion h2
    · rename_i a' h2
      rw [ha] at h2
      cases Option.some.inj h2
      rfl

theorem escalate_alert_eq_of_some (st : AlertManager) (r : Nat) (a : Alert)
    (ha : st.store[r]? = some a) :
    st.escalate_alert r =
      { st with
          store := st.store.set r (escalateAlert a)
          alert_queue := st.alert_queue ++ [r] } := by
  unfold AlertManager.escalate_alert
  split
  · rename_i h
    rw [ha] at h
    exact Option.noConfusion h
  · rename_i a' h
    rw [ha] at h
    cases Option.some.inj h
    rfl

theorem check_escalation_eq_of_not_active (st : AlertManager)
    (alert_id : String) (now : Int)
    (h : dictGet st.active_alerts alert_id = none) :
    st.check_escalation alert_id now = st := by
  unfold AlertManager.check_escalation
  split
  · rfl
  · rename_i r hr
    rw [h] at hr
    exact Option.noConfusion hr

theorem check_escalation_eq_of_timeout (st : AlertManager)
    (alert_id : String) (now : Int) (r : Nat) (a : Alert)
    (hr : dictGet st.active_alerts alert_id = some r)
    (ha : st.store[r]? = some a)
    (ht : st.escalation_config.timeout ≤ now - a.timestamp) :
    st.check_escalation alert_id now = st.escalate_alert r := by
  unfold AlertManager.check_escalation
  split
  · rename_i h
    rw [hr] at h
    exact Option.noConfusion h
  · rename_i r' h
    rw [hr] at h
    cases Option.some.inj h
    split
    · rename_i h2
      rw [ha] at h2
      exact Option.noConfusion h2
    · rename_i a' h2
      rw [ha] at h2
      cases Option.some.inj h2
      rw [if_pos ht]

theorem check_escalation_eq_of_early (st : AlertManager)
    (alert_id : String) (now : Int) (r : Nat) (a : Alert)
    (hr : dictGet st.active_alerts alert_id = some r)
    (ha : st.store[r]? = some a)
    (ht : ¬ st.escalation_config.timeout ≤ now - a.timestamp) :
    st.check_escalation alert_id now = st := by
  unfold AlertManager.check_escalation
  split
  · rfl
  · rename_i r' h
    rw [hr] at h
    cases Option.some.inj h
    split
    · rfl
    · rename_i a' h2
      rw [ha] at h2
      cases Option.some.inj h2
      rw [if_neg ht]

theorem check_escalation_eq_of_dangling (st : AlertManager)
    (alert_id : String) (now : Int) (r : Nat)
    (hr : dictGet st.active_alerts alert_id = some r)
    (ha : st.store[r]? = none) :
    st.check_escalation alert_id now = st := by
  unfold AlertManager.check_escalation
  split
  · rfl
  · rename_i r' h
    rw [hr] at h
    cases Option.some.inj h
    split
    · rfl
    · rename_i a' h2
      rw [ha] at h2
      exact Option.noConfusion h2

theorem process_one_eq_of_nil (st : AlertManager) (h : st.alert_queue = []) :
    st.process_one = st := by
  unfold AlertManager.process_one
  split
  · rfl
  · rename_i q rest hq
    rw [h] at hq
    exact List.noConfusion hq

theorem process_one_eq_of_cons (st : AlertManager) (q : Nat) (rest : List Nat)
    (h : st.alert_queue = q :: rest) :
    st.process_one = { st with alert_queue := rest } := by
  unfold AlertManager.process_one
  split
  · rename_i hq
    rw [h] at hq
    exact List.noConfusion hq
  · rename_i q' rest' hq
    rw [h] at hq
    cases List.cons.inj hq |>.2
    rfl

theorem acknowledge_alert_eq_of_dangling (st : AlertManager)
    (alert_id who : String) (now : Int) (r : Nat)
    (hr : dictGet st.active_alerts alert_id = some r)
    (ha : st.store[r]? = none) :
    st.acknowledge_alert alert_id who now = st := by
  unfold AlertManager.acknowledge_alert
  split
  · rfl
  · rename_i r' h
    rw [hr] at h
    cases Option.some.inj h
    split
    · rfl
    · rename_i a' h2
      rw [ha] at h2
      exact Option.noConfusion h2

theorem inv_step {st st' : AlertManager} (hs : AlertManager.Step st st')
    (hinv : AlertManager.Inv st) : AlertManager.Inv st' := by
  obtain ⟨h1, h2, h3⟩ := hinv
  cases hs with
  | add_recipient r => exact ⟨h1, h2, h3⟩
  | configure c => exact ⟨h1, h2, h3⟩
  | dequeue =>
      cases hq : st.alert_queue with
      | nil =>
          rw [process_one_eq_of_nil st hq]
          exact ⟨h1, h2, h3⟩
      | cons q rest =>
          rw [process_one_eq_of_cons st q rest hq]
          exact ⟨h1, h2, h3⟩
  | send a ha =>
      refine ⟨?_, ?_, ?_⟩
      · show ∀ id r,
          dictGet (dictSet st.active_alerts a.alert_id st.store.length) id = some r →
          r < (st.store ++ [a]).length
        intro id r hr
        by_cases hid : id = a.alert_id
        · subst hid
          rw [dictGet_dictSet_self] at hr
          have := Option.some.inj hr
          simp [← this]
        · rw [dictGet_dictSet_other _ _ _ _ hid] at hr
          have := h1 id r hr
          simp only [List.length_append, List.length_cons, List.length_nil]
          omega
      · show ∀ id r b,
          dictGet (dictSet st.active_alerts a.alert_id st.store.length) id = some r →
          (st.store ++ [a])[r]? = some b → b.acknowledged = false
        intro id r b hr hb
        by_cases hid : id = a.alert_id
        · subst hid
          rw [dictGet_dictSet_self] at hr
          have hrL : st.store.length = r := Option.some.inj hr
          subst hrL
          simp only [List.getElem?_concat_length] at hb
          have : a = b := Option.some.inj hb
          exact this ▸ ha
        · rw [dictGet_dictSet_other _ _ _ _ hid] at hr
          have hlt := h1 id r hr
          rw [List.getElem?_append, if_pos hlt] at hb
          exact h2 id r b hr hb
      · show ∀ id₁ id₂ r,
          dictGet (dictSet st.active_alerts a.alert_id st.store.length) id₁ = some r →
          dictGet (dictSet st.active_alerts a.alert_id st.store.length) id₂ = some r →
          id₁ = id₂
        intro id₁ id₂ r hr1 hr2
        by_cases hi1 : id₁ = a.alert_id
        · by_cases hi2 : id₂ = a.alert_id
          · rw [hi1, hi2]
          · subst hi1
            rw [dictGet_dictSet_self] at hr1
            rw [dictGet_dictSet_other _ _ _ _ hi2] at hr2
            have hlt := h1 id₂ r hr2
            have hrL := Option.some.inj hr1
            omega
        · by_cases hi2 : id₂ = a.alert_id
          · subst hi2
            rw [dictGet_dictSet_self] at hr2
            rw [dictGet_dictSet_other _ _ _ _ hi1] at hr1
            have hlt := h1 id₁ r hr1
            have hrL := Option.some.inj hr2
            omega
          · rw [dictGet_dictSet_other _ _ _ _ hi1] at hr1
            rw [dictGet_dictSet_other _ _ _ _ hi2] at hr2
            exact h3 id₁ id₂ r hr1 hr2
  | acknowledge alert_id who now =>
      cases hl : dictGet st.active_alerts alert_id with
      | none =>
          rw [acknowledge_alert_eq_of_not_active st alert_id who now hl]
          exact ⟨h1, h2, h3⟩
      | some r =>
          cases hsr : st.store[r]? with
          | none =>
              rw [acknowledge_alert_eq_of_dangling st alert_id who now r hl hsr]
              exact ⟨h1, h2, h3⟩
          | some a =>
              rw [acknowledge_alert_eq_of_active st alert_id who now r a hl hsr]
              refine ⟨?_, ?_, ?_⟩
              · show ∀ id2 r2,
                  dictGet (dictRemove st.active_alerts alert_id) id2 = some r2 →
                  r2 < (st.store.set r _).length
                intro id2 r2 hr2
                by_cases hid : id2 = alert_id
                · subst hid
                  rw [dictGet_dictRemove_self] at hr2
                  exact Option.noConfusion hr2
                · rw [dictGet_dictRemove_other _ _ _ hid] at hr2
                  have := h1 id2 r2 hr2
                  simpa using this
              · show ∀ id2 r2 b,
                  dictGet (dictRemove st.active_alerts alert_id) id2 = some r2 →
                  (st.store.set r _)[r2]? = some b → b.acknowledged = false
                intro id2 r2 b hr2 hb
                by_cases hid : id2 = alert_id
                · subst hid
                  rw [dictGet_dictRemove_self] at hr2
                  exact Option.noConfusion hr2
                · rw [dictGet_dictRemove_other _ _ _ hid] at hr2
                  by_cases hrr : r = r2
                  · subst hrr
                    exact absurd (h3 id2 alert_id r hr2 hl) hid
                  · rw [List.getElem?_set_ne hrr] at hb
                    exact h2 id2 r2 b hr2 hb
              · show ∀ id₁ id₂ r2,
                  dictGet (dictRemove st.active_alerts alert_id) id₁ = some r2 →
                  dictGet (dictRemove st.active_alerts alert_id) id₂ = some r2 →
                  id₁ = id₂
                intro id₁ id₂ r2 hr1 hr2
                by_cases hi1 : id₁ = alert_id
                · subst hi1
                  rw [dictGet_dictRemove_self] at hr1
                  exact Option.noConfusion hr1
                · by_cases hi2 : id₂ = alert_id
                  · subst hi2
                    rw [dictGet_dictRemove_self] at hr2
                    exact Option.noConfusion hr2
                  · rw [dictGet_dictRemove_other _ _ _ hi1] at hr1
                    rw [dictGet_dictRemove_other _ _ _ hi2] at hr2
                    exact h3 id₁ id₂ r2 hr1 hr2
  | fire alert_id now =>
      cases hl : dictGet st.active_alerts alert_id with
      | none =>
          rw [check_escalation_eq_of_not_active st alert_id now hl]
          exact ⟨h1, h2, h3⟩
      | some r =>
          cases hsr : st.store[r]? with
          | none =>
              rw [check_escalation_eq_of_dangling st alert_id now r hl hsr]
              exact ⟨h1, h2, h3⟩
          | some a =>
              by_cases ht : st.escalation_config.timeout ≤ now - a.timestamp
              · rw [check_escalation_eq_of_timeout st alert_id now r a hl hsr ht,
                    escalate_alert_eq_of_some st r a hsr]
                refine ⟨?_, ?_, ?_⟩
                · show ∀ id2 r2, dictGet st.active_alerts id2 = some r2 →
                    r2 < (st.store.set r (escalateAlert a)).length
                  intro id2 r2 hr2
                  have := h1 id2 r2 hr2
                  simpa using this
                · show ∀ id2 r2 b, dictGet st.active_alerts id2 = some r2 →
                    (st.store.set r (escalateAlert a))[r2]? = some b →
                    b.acknowledged = false
                  intro id2 r2 b hr2 hb
                  by_cases hrr : r = r2
                  · subst hrr
                    rw [List.getElem?_set_self (h1 alert_id r hl)] at hb
                    have hb' : escalateAlert a = b := Option.some.inj hb
                    subst hb'
                    rw [escalateAlert_acknowledged]
                    exact h2 alert_id r a hl hsr
                  · rw [List.getElem?_set_ne hrr] at hb
                    exact h2 id2 r2 b hr2 hb
                · exact h3
              · rw [check_escalation_eq_of_early st alert_id now r a hl hsr ht]
                exact ⟨h1, h2, h3⟩

theorem inv_reachable {st : AlertManager} (h : AlertManager.Reachable st) :
    AlertManager.Inv st := by
  induction h with
  | refl => exact inv_init
  | tail _ hstep ih => exact inv_step hstep ih

theorem AlertSeverity.value_le_three_of_ne_critical (s : AlertSeverity)
    (h : s ≠ AlertSeverity.CRITICAL) : s.value ≤ 3 := by
  cases s
  · exact Nat.le_of_lt (by decide)
  · exact Nat.le_of_lt (by decide)
  · exact Nat.le_refl 3
  · exact absurd rfl h

/-- A concrete CRITICAL alert used to witness the saturation behavior. -/
def critAlert : Alert :=
  { alert_id := "CRIT-1"
    hazard_id := "HAZ-9"
    severity := AlertSeverity.CRITICAL
    title := "Gas leak"
    message := "Gas leak detected"
    timestamp := 0 }

/-- A concrete alert used as a test fixture throughout the witnesses,
mirroring the module's `__main__` example. -/
def testAlert : Alert :=
  { alert_id := "TEST-001"
    hazard_id := "HAZ-001"
    severity := AlertSeverity.HIGH
    title := "Fire Detected"
    message := "A fire has been detected in Building A, Floor 2."
    timestamp := 0 }

/-- C5: escalating an alert whose severity is CRITICAL leaves the severity at
CRITICAL while still incrementing `metadata['escalation_count']` by one, and
escalating at any lower severity increases the severity value by exactly one
level, so severity under escalation moves upward and saturates at CRITICAL. -/
theorem claim_C5_escalation_saturates_at_critical (a : Alert) :
    (a.severity = AlertSeverity.CRITICAL →
      (escalateAlert a).severity = AlertSeverity.CRITICAL) ∧
    (a.severity ≠ AlertSeverity.CRITICAL →
      (escalateAlert a).severity.value = a.severity.value + 1) ∧
    metaCountVal (escalateAlert a).metadata = metaCountVal a.metadata + 1 ∧
    a.severity.value ≤ (escalateAlert a).severity.value ∧
    (escalateAlert a).severity.value ≤ AlertSeverity.CRITICAL.value := by
  refine ⟨escalateAlert_severity_of_critical a,
    escalateAlert_severity_of_not_critical a, escalateAlert_metaCount a, ?_, ?_⟩
  · by_cases h : a.severity = AlertSeverity.CRITICAL
    · rw [escalateAlert_severity_of_critical a h, h]
    · rw [escalateAlert_severity_of_not_critical a h]
      omega
  · by_cases h : a.severity = AlertSeverity.CRITICAL
    · rw [escalateAlert_severity_of_critical a h]
    · rw [escalateAlert_severity_of_not_critical a h]
      have := AlertSeverity.value_le_three_of_ne_critical a.severity h
      show a.severity.value + 1 ≤ 4
      omega

theorem claim_C5_escalation_saturates_at_critical_witness :
    (escalateAlert critAlert).severity = AlertSeverity.CRITICAL ∧
    metaCountVal (escalateAlert critAlert).metadata =
      metaCountVal critAlert.metadata + 1 ∧
    (escalateAlert testAlert).severity.value = testAlert.severity.value + 1 :=
  ⟨(claim_C5_escalation_saturates_at_critical critAlert).1 rfl,
   (claim_C5_escalation_saturates_at_critical critAlert).2.2.1,
   (claim_C5_escalation_saturates_at_critical testAlert).2.1 (by decide)⟩

/-- C6: acknowledging an alert id that is not in the active set is a silent
no-op: the resulting manager state is the very same state, so the active set,
the history, every stored alert and every statistics value are unchanged. -/
theorem claim_C6_acknowledge_unknown_id_noop (st : AlertManager)
    (alert_id who : String) (now : Int)
    (h : dictGet st.active_alerts alert_id = none) :
    st.acknowledge_alert alert_id who now = st ∧
    (st.acknowledge_alert alert_id who now).get_alert_statistics =
      st.get_alert_statistics ∧
    (st.acknowledge_alert alert_id who now).active_alerts = st.active_alerts ∧
    (st.acknowledge_alert alert_id who now).alert_history = st.alert_history ∧
    (st.acknowledge_alert alert_id who now).store = st.store := by
  have heq := acknowledge_alert_eq_of_not_active st alert_id who now h
  exact ⟨heq, by rw [heq], by rw [heq], by rw [heq], by rw [heq]⟩

theorem claim_C6_acknowledge_unknown_id_noop_witness :
    (AlertManager.init.send_alert testAlert).acknowledge_alert
        "UNKNOWN-9" "operator" 77 =
      AlertManager.init.send_alert testAlert :=
  (claim_C6_acknowledge_unknown_id_noop
    (AlertManager.init.send_alert testAlert) "UNKNOWN-9" "operator" 77
    (by decide)).1

/-- A recipient whose active-hours window wraps midnight (start lexically
above end), used to witness that such windows never match. -/
def nightRecipient : AlertRecipient :=
  { name := "Night Shift"
    channels := [AlertChannel.CONSOLE]
    severity_threshold := AlertSeverity.LOW
    active_hours := some { start := "17:00", stop := "09:00" } }

/-- C9: for a recipient whose active-hours window has start lexically greater
than end (a midnight-wrapping window as zero-padded HH:MM strings),
`should_receive_alert` returns false for every current time and every
severity: the simple lexical range check can never hold. -/
theorem claim_C9_wrapping_window_never_matches (r : AlertRecipient)
    (w : ActiveHours) (hw : r.active_hours = some w)
    (hgt : strLe w.start w.stop = false)
    (severity : AlertSeverity) (t : Int) :
    r.should_receive_alert severity t = false := by
  unfold AlertRecipient.should_receive_alert
  by_cases hsev : severity.value < r.severity_threshold.value
  · rw [if_pos hsev]
  · rw [if_neg hsev, hw]
    show (if !(strLe w.start (fmtHM t) && strLe (fmtHM t) w.stop) then false
          else true) = false
    by_cases h1 : strLe w.start (fmtHM t) = true
    · by_cases h2 : strLe (fmtHM t) w.stop = true
      · have := strLe_trans w.start (fmtHM t) w.stop h1 h2
        rw [hgt] at this
        exact Bool.noConfusion this
      · rw [Bool.not_eq_true] at h2
        rw [h1, h2]
        rfl
    · rw [Bool.not_eq_true] at h1
      rw [h1]
      rfl

theorem claim_C9_wrapping_window_never_matches_witness :
    strLe "17:00" "09:00" = false ∧
    nightRecipient.should_receive_alert AlertSeverity.CRITICAL 37800 = false ∧
    nightRecipient.should_receive_alert AlertSeverity.LOW 64800 = false :=
  ⟨by decide,
   claim_C9_wrapping_window_never_matches nightRecipient _ rfl (by decide)
     AlertSeverity.CRITICAL 37800,
   claim_C9_wrapping_window_never_matches nightRecipient _ rfl (by decide)
     AlertSeverity.LOW 64800⟩

theorem should_receive_alert_iff (r : AlertRecipient)
    (severity : AlertSeverity) (t : Int) :
    r.should_receive_alert severity t = true ↔
      (r.severity_threshold.value ≤ severity.value ∧
        (r.active_hours = none ∨ ∃ w, r.active_hours = some w ∧
          strLe w.start (fmtHM t) = true ∧ strLe (fmtHM t) w.stop = true)) := by
  unfold AlertRecipient.should_receive_alert
  by_cases hsev : severity.value < r.severity_threshold.value
  · rw [if_pos hsev]
    simp only [Bool.false_eq_true, false_iff, not_and]
    intro hthr
    omega
  · rw [if_neg hsev]
    cases hw : r.active_hours with
    | none =>
        constructor
        · intro _
          exact ⟨Nat.le_of_not_lt hsev, Or.inl rfl⟩
        · intro _
          rfl
    | some w =>
        constructor
        · intro h
          have h' : (if !(strLe w.start (fmtHM t) && strLe (fmtHM t) w.stop)
              then false else true) = true := h
          by_cases h1 : strLe w.start (fmtHM t) = true
          · by_cases h2 : strLe (fmtHM t) w.stop = true
            · exact ⟨Nat.le_of_not_lt hsev, Or.inr ⟨w, rfl, h1, h2⟩⟩
            · rw [Bool.not_eq_true] at h2
              rw [h1, h2] at h'
              exact Bool.noConfusion h'
          · rw [Bool.not_eq_true] at h1
            rw [h1] at h'
            exact Bool.noConfusion h'
        · rintro ⟨hthr, hcase⟩
          rcases hcase with hnone | ⟨w', hw', h1, h2⟩
          · exact Option.noConfusion hnone
          · cases Option.some.inj hw'
            show (if !(strLe w.start (fmtHM t) && strLe (fmtHM t) w.stop)
                then false else true) = true
            rw [h1, h2]
            rfl

theorem should_receive_alert_eq_false_of_below (r : AlertRecipient)
    (severity : AlertSeverity) (t : Int)
    (h : severity.value < r.severity_threshold.value) :
    r.should_receive_alert severity t = false := by
  unfold AlertRecipient.should_receive_alert
  rw [if_pos h]

/-- The recipient configured in the module's `__main__` example: MEDIUM
threshold, console and email channels, no active-hours window. -/
def medRecipient : AlertRecipient :=
  { name := "Test User"
    channels := [AlertChannel.CONSOLE, AlertChannel.EMAIL]
    email := some "test@example.com"
    severity_threshold := AlertSeverity.MEDIUM }

/-- A concrete LOW-severity alert, below `medRecipient`'s threshold. -/
def lowAlert : Alert :=
  { alert_id := "LOW-1"
    hazard_id := "HAZ-002"
    severity := AlertSeverity.LOW
    title := "Minor obstruction"
    message := "A minor obstruction was detected."
    timestamp := 0 }

/-- A concrete handler environment: console succeeds, email raises, every
other channel has no registered handler. -/
def testHandlers : Handlers := fun ch =>
  match ch with
  | AlertChannel.CONSOLE => some (fun _ _ => SendResult.ok)
  | AlertChannel.EMAIL => some (fun _ _ => SendResult.raised "smtp error")
  | _ => none

/-- C2: `should_receive_alert(severity, now)` is true exactly when the
severity reaches the recipient's threshold and (no active-hours window is
set, or the zero-padded HH:MM rendering of `now` lies lexically inside
`[start, end]`); consequently a recipient whose threshold strictly exceeds
the alert's severity contributes no channel attempt at all during delivery,
so no handler is ever invoked for them. -/
theorem claim_C2_eligibility_and_threshold_guard (r : AlertRecipient)
    (severity : AlertSeverity) (t : Int) :
    (r.should_receive_alert severity t = true ↔
      (r.severity_threshold.value ≤ severity.value ∧
        (r.active_hours = none ∨ ∃ w, r.active_hours = some w ∧
          strLe w.start (fmtHM t) = true ∧ strLe (fmtHM t) w.stop = true))) ∧
    (∀ (hs : Handlers) (alert : Alert),
      alert.severity = severity →
      severity.value < r.severity_threshold.value →
      deliverToRecipient hs alert t r = []) := by
  refine ⟨should_receive_alert_iff r severity t, ?_⟩
  intro hs alert ha hlt
  unfold deliverToRecipient
  rw [ha, should_receive_alert_eq_false_of_below r severity t hlt]
  simp

theorem claim_C2_eligibility_and_threshold_guard_witness :
    medRecipient.should_receive_alert AlertSeverity.HIGH 36000 = true ∧
    deliverToRecipient testHandlers lowAlert 36000 medRecipient = [] :=
  ⟨(claim_C2_eligibility_and_threshold_guard medRecipient
      AlertSeverity.HIGH 36000).1.mpr ⟨by decide, Or.inl rfl⟩,
   (claim_C2_eligibility_and_threshold_guard medRecipient
      AlertSeverity.LOW 36000).2 testHandlers lowAlert rfl (by decide)⟩

theorem attemptChannel_key (hs : Handlers) (alert : Alert)
    (r : AlertRecipient) (ch : AlertChannel) :
    (attemptChannel hs alert r ch).key = (r.name, ch) := by
  unfold attemptChannel
  cases hs ch with
  | none => rfl
  | some h =>
      show (match h alert r with
            | SendResult.ok => DeliveryEvent.sent r.name ch
            | SendResult.raised _ => DeliveryEvent.sendFailed r.name ch).key =
          (r.name, ch)
      cases h alert r with
      | ok => rfl
      | raised m => rfl

/-- C7: during delivery every (eligible recipient, channel) pair is attempted
independently: for any handler environment whatsoever — including one whose
handlers raise, or that lacks handlers for some channels — the log of
attempted (recipient, channel) pairs is exactly the eligible recipients'
channel lists in order; a channel with no registered handler yields a
skipped-with-warning event and a raising handler yields a caught-and-logged
failure event, and `deliver_alert` is a total function into an event list,
so it never propagates a sender's exception. -/
theorem claim_C7_delivery_isolation (hs : Handlers)
    (recipients : List AlertRecipient) (alert : Alert) (t : Int) :
    ((deliver_alert hs recipients alert t).map DeliveryEvent.key =
      recipients.flatMap (fun r =>
        if r.should_receive_alert alert.severity t then
          r.channels.map (fun ch => (r.name, ch))
        else [])) ∧
    (∀ (r : AlertRecipient) (ch : AlertChannel), hs ch = none →
      attemptChannel hs alert r ch = DeliveryEvent.noHandler r.name ch) ∧
    (∀ (r : AlertRecipient) (ch : AlertChannel)
        (h : Alert → AlertRecipient → SendResult) (m : String),
      hs ch = some h → h alert r = SendResult.raised m →
      attemptChannel hs alert r ch = DeliveryEvent.sendFailed r.name ch) := by
  refine ⟨?_, ?_, ?_⟩
  · unfold deliver_alert
    rw [List.map_flatMap]
    have hfun : ∀ r : AlertRecipient,
        (deliverToRecipient hs alert t r).map DeliveryEvent.key =
        (if r.should_receive_alert alert.severity t then
          r.channels.map (fun ch => (r.name, ch)) else []) := by
      intro r
      unfold deliverToRecipient
      by_cases hre : r.should_receive_alert alert.severity t
      · rw [if_pos hre, if_pos hre, List.map_map]
        simp [Function.comp, attemptChannel_key]
      · rw [if_neg hre, if_neg hre]
        rfl
    exact congrArg recipients.flatMap (funext hfun)
  · intro r ch hch
    unfold attemptChannel
    rw [hch]
  · intro r ch h m hch hr
    unfold attemptChannel
    rw [hch]
    show (match h alert r with
          | SendResult.ok => DeliveryEvent.sent r.name ch
          | SendResult.raised _ => DeliveryEvent.sendFailed r.name ch) =
        DeliveryEvent.sendFailed r.name ch
    rw [hr]

theorem claim_C7_delivery_isolation_witness :
    attemptChannel testHandlers testAlert medRecipient AlertChannel.SMS =
      DeliveryEvent.noHandler "Test User" AlertChannel.SMS ∧
    attemptChannel testHandlers testAlert medRecipient AlertChannel.EMAIL =
      DeliveryEvent.sendFailed "Test User" AlertChannel.EMAIL :=
  ⟨(claim_C7_delivery_isolation testHandlers [] testAlert 0).2.1
      medRecipient AlertChannel.SMS rfl,
   (claim_C7_delivery_isolation testHandlers [] testAlert 0).2.2
      medRecipient AlertChannel.EMAIL
      (fun _ _ => SendResult.raised "smtp error") "smtp error" rfl rfl⟩

theorem escalate_alert_eq_of_none (st : AlertManager) (r : Nat)
    (ha : st.store[r]? = none) : st.escalate_alert r = st := by
  unfold AlertManager.escalate_alert
  split
  · rfl
  · rename_i a h
    rw [ha] at h
    exact Option.noConfusion h

/-- The state of a fresh manager right after `send_alert(testAlert)`. -/
def sentState : AlertManager := AlertManager.init.send_alert testAlert

/-- C10: `_escalate_alert` mutates only the escalated alert's severity and
metadata and re-enqueues its reference: the history list and the active set
are untouched (so the `total_alerts` and `active_alerts` statistics are
unchanged), every other store cell is untouched, and all identity,
acknowledgement and timestamp fields of the mutated alert are preserved. -/
theorem claim_C10_escalate_frame (st : AlertManager) (r : Nat) :
    (st.escalate_alert r).alert_history = st.alert_history ∧
    (st.escalate_alert r).active_alerts = st.active_alerts ∧
    ((st.escalate_alert r).get_alert_statistics).total_alerts =
      (st.get_alert_statistics).total_alerts ∧
    ((st.escalate_alert r).get_alert_statistics).active_alerts =
      (st.get_alert_statistics).active_alerts ∧
    (∀ r', r ≠ r' → (st.escalate_alert r).store[r']? = st.store[r']?) ∧
    (∀ a, st.store[r]? = some a →
      (st.escalate_alert r).store[r]? = some (escalateAlert a) ∧
      (st.escalate_alert r).alert_queue = st.alert_queue ++ [r]) ∧
    (∀ a : Alert,
      (escalateAlert a).alert_id = a.alert_id ∧
      (escalateAlert a).hazard_id = a.hazard_id ∧
      (escalateAlert a).title = a.title ∧
      (escalateAlert a).message = a.message ∧
      (escalateAlert a).timestamp = a.timestamp ∧
      (escalateAlert a).location = a.location ∧
      (escalateAlert a).image_path = a.image_path ∧
      (escalateAlert a).acknowledged = a.acknowledged ∧
      (escalateAlert a).acknowledged_by = a.acknowledged_by ∧
      (escalateAlert a).acknowledged_at = a.acknowledged_at) := by
  cases hsr : st.store[r]? with
  | none =>
      rw [escalate_alert_eq_of_none st r hsr]
      refine ⟨rfl, rfl, rfl, rfl, fun r' _ => rfl, ?_, ?_⟩
      · intro a ha
        exact Option.noConfusion ha
      · intro a
        exact ⟨rfl, rfl, rfl, rfl, rfl, rfl, rfl, rfl, rfl, rfl⟩
  | some a0 =>
      rw [escalate_alert_eq_of_some st r a0 hsr]
      refine ⟨rfl, rfl, rfl, rfl, ?_, ?_, ?_⟩
      · intro r' hne
        show (st.store.set r (escalateAlert a0))[r']? = st.store[r']?
        exact List.getElem?_set_ne hne
      · intro a ha
        have haa : a0 = a := Option.some.inj ha
        subst haa
        constructor
        · show (st.store.set r (escalateAlert a0))[r]? = some (escalateAlert a0)
          exact List.getElem?_set_self (List.getElem?_eq_some.mp hsr).1
        · rfl
      · intro a
        exact ⟨rfl, rfl, rfl, rfl, rfl, rfl, rfl, rfl, rfl, rfl⟩

theorem claim_C10_escalate_frame_witness :
    (sentState.escalate_alert 0).alert_history = sentState.alert_history ∧
    (sentState.escalate_alert 0).active_alerts = sentState.active_alerts ∧
    (sentState.escalate_alert 0).store[0]? = some (escalateAlert testAlert) ∧
    (sentState.escalate_alert 0).store[5]? = sentState.store[5]? :=
  ⟨(claim_C10_escalate_frame sentState 0).1,
   (claim_C10_escalate_frame sentState 0).2.1,
   ((claim_C10_escalate_frame sentState 0).2.2.2.2.2.1 testAlert rfl).1,
   (claim_C10_escalate_frame sentState 0).2.2.2.2.1 5 (by decide)⟩

/-- C1: the escalation-timer callback for an alert id. A timer is armed at
delivery time, which is no earlier than the alert's creation timestamp, and
fires a full `timeout` later, so at any fire `timestamp + timeout ≤ now`
holds; under that timing the callback is a strict no-op when the id has left
the active set, and otherwise bumps the severity by exactly one level
(saturating at CRITICAL), sets `metadata['escalated']`, increments
`metadata['escalation_count']` by one, and re-enqueues the alert — and the
configured `max_escalations` is never consulted: the callback commutes with
arbitrary changes to that setting, no matter how many escalations have
already happened. -/
theorem claim_C1_timer_fire_semantics (st : AlertManager)
    (alert_id : String) (now : Int) :
    (dictGet st.active_alerts alert_id = none →
      st.check_escalation alert_id now = st) ∧
    (∀ r a, dictGet st.active_alerts alert_id = some r →
      st.store[r]? = some a →
      a.timestamp + st.escalation_config.timeout ≤ now →
      st.check_escalation alert_id now = st.escalate_alert r ∧
      ∃ a', (st.check_escalation alert_id now).store[r]? = some a' ∧
        (a.severity = AlertSeverity.CRITICAL →
          a'.severity = AlertSeverity.CRITICAL) ∧
        (a.severity ≠ AlertSeverity.CRITICAL →
          a'.severity.value = a.severity.value + 1) ∧
        dictGet a'.metadata "escalated" = some (MetaVal.bool true) ∧
        metaCountVal a'.metadata = metaCountVal a.metadata + 1 ∧
        (st.check_escalation alert_id now).alert_queue =
          st.alert_queue ++ [r]) ∧
    (∀ m : Nat,
      ({ st with escalation_config :=
          { st.escalation_config with
              max_escalations := m } } : AlertManager).check_escalation
          alert_id now =
        { st.check_escalation alert_id now with escalation_config :=
          { (st.check_escalation alert_id now).escalation_config with
              max_escalations := m } }) := by
  refine ⟨fun h => check_escalation_eq_of_not_active st alert_id now h, ?_, ?_⟩
  · intro r a hr ha ht
    have ht' : st.escalation_config.timeout ≤ now - a.timestamp := by omega
    have heq := check_escalation_eq_of_timeout st alert_id now r a hr ha ht'
    have hesc := escalate_alert_eq_of_some st r a ha
    refine ⟨heq, escalateAlert a, ?_,
      escalateAlert_severity_of_critical a,
      escalateAlert_severity_of_not_critical a,
      escalateAlert_escalated_flag a,
      escalateAlert_metaCount a, ?_⟩
    · rw [heq, hesc]
      show (st.store.set r (escalateAlert a))[r]? = some (escalateAlert a)
      exact List.getElem?_set_self (List.getElem?_eq_some.mp ha).1
    · rw [heq, hesc]
  · intro m
    cases hl : dictGet st.active_alerts alert_id with
    | none =>
        rw [check_escalation_eq_of_not_active st alert_id now hl,
            check_escalation_eq_of_not_active
              { st with escalation_config :=
                  { st.escalation_config with max_escalations := m } }
              alert_id now hl]
    | some r =>
        cases hsr : st.store[r]? with
        | none =>
            rw [check_escalation_eq_of_dangling st alert_id now r hl hsr,
                check_escalation_eq_of_dangling
                  { st with escalation_config :=
                      { st.escalation_config with max_escalations := m } }
                  alert_id now r hl hsr]
        | some a =>
            by_cases ht : st.escalation_config.timeout ≤ now - a.timestamp
            · rw [check_escalation_eq_of_timeout st alert_id now r a hl hsr ht,
                  check_escalation_eq_of_timeout
                    { st with escalation_config :=
                        { st.escalation_config with max_escalations := m } }
                    alert_id now r a hl hsr ht,
                  escalate_alert_eq_of_some st r a hsr,
                  escalate_alert_eq_of_some
                    { st with escalation_config :=
                        { st.escalation_config with max_escalations := m } }
                    r a hsr]
            · rw [check_escalation_eq_of_early st alert_id now r a hl hsr ht,
                  check_escalation_eq_of_early
                    { st with escalation_config :=
                        { st.escalation_config with max_escalations := m } }
                    alert_id now r a hl hsr ht]

theorem claim_C1_timer_fire_semantics_witness :
    sentState.check_escalation "ABSENT-1" 400 = sentState ∧
    sentState.check_escalation "TEST-001" 400 = sentState.escalate_alert 0 :=
  ⟨(claim_C1_timer_fire_semantics sentState "ABSENT-1" 400).1 (by decide),
   ((claim_C1_timer_fire_semantics sentState "TEST-001" 400).2.1 0 testAlert
      (by decide) rfl (by decide)).1⟩

/-- C3: in every reachable manager state, an alert referenced by the active
set is unacknowledged, and `acknowledge_alert` on an active id sets the
three acknowledgement fields and deletes the id from the active set in the
same operation — so no reachable state holds an alert that is both active
and acknowledged. -/
theorem claim_C3_active_implies_unacknowledged (st : AlertManager)
    (hreach : AlertManager.Reachable st) :
    (∀ id r a, dictGet st.active_alerts id = some r →
      st.store[r]? = some a → a.acknowledged = false) ∧
    (∀ alert_id who now r a,
      dictGet st.active_alerts alert_id = some r → st.store[r]? = some a →
      dictGet (st.acknowledge_alert alert_id who now).active_alerts
          alert_id = none ∧
      (st.acknowledge_alert alert_id who now).store[r]? =
        some { a with
                acknowledged := true
                acknowledged_by := some who
                acknowledged_at := some now }) := by
  obtain ⟨h1, h2, h3⟩ := inv_reachable hreach
  refine ⟨h2, ?_⟩
  intro alert_id who now r a hr ha
  rw [acknowledge_alert_eq_of_active st alert_id who now r a hr ha]
  constructor
  · show dictGet (dictRemove st.active_alerts alert_id) alert_id = none
    exact dictGet_dictRemove_self st.active_alerts alert_id
  · show (st.store.set r _)[r]? = some _
    exact List.getElem?_set_self (h1 alert_id r hr)

theorem claim_C3_active_implies_unacknowledged_witness :
    testAlert.acknowledged = false ∧
    dictGet (sentState.acknowledge_alert "TEST-001" "operator" 120).active_alerts
        "TEST-001" = none := by
  have hreach : AlertManager.Reachable sentState :=
    Relation.ReflTransGen.single
      (AlertManager.Step.send AlertManager.init testAlert rfl)
  exact ⟨(claim_C3_active_implies_unacknowledged sentState hreach).1
      "TEST-001" 0 testAlert (by decide) rfl,
    ((claim_C3_active_implies_unacknowledged sentState hreach).2
      "TEST-001" "operator" 120 0 testAlert (by decide) rfl).1⟩

theorem ack_times_eq_map_filter (l : List Alert)
    (hwf : ∀ a ∈ l, a.acknowledged = true → a.acknowledged_at.isSome) :
    l.filterMap (fun a =>
      if a.acknowledged then
        match a.acknowledged_at with
        | some t => some (((t - a.timestamp : Int) : ℚ) / 60)
        | none => none
      else none) =
    (l.filter (fun a => a.acknowledged)).map (fun a =>
      ((a.acknowledged_at.getD a.timestamp - a.timestamp : Int) : ℚ) / 60) := by
  induction l with
  | nil => rfl
  | cons a rest ih =>
      have hrest : ∀ b ∈ rest, b.acknowledged = true → b.acknowledged_at.isSome :=
        fun b hb => hwf b (List.mem_cons_of_mem a hb)
      by_cases hack : a.acknowledged = true
      · have hsome := hwf a (List.mem_cons_self a rest) hack
        cases hat : a.acknowledged_at with
        | none =>
            rw [hat] at hsome
            simp at hsome
        | some t =>
            simp only [List.filterMap_cons, List.filter_cons, hack, hat,
              eq_self_iff_true, if_true, List.map_cons, Option.getD_some]
            rw [ih hrest]
      · have hack' : a.acknowledged = false := by
          rw [Bool.not_eq_true] at hack
          exact hack
        simp only [List.filterMap_cons, List.filter_cons, hack',
          Bool.false_eq_true, if_false]
        exact ih hrest

/-- The average-acknowledgement statistic as §4.5 of the specification words
it: the arithmetic mean of (acknowledgedAt − createdAt), in minutes, over
all acknowledged alerts of the history, and zero when none are acknowledged.
Stated independently of the code for comparison with
`AlertManager.calculate_avg_ack_time`. -/
def specMeanAckMinutes (history : List Alert) : ℚ :=
  if history.filter (fun a => a.acknowledged) = [] then 0
  else ((history.filter (fun a => a.acknowledged)).map (fun a =>
      ((a.acknowledged_at.getD a.timestamp - a.timestamp : Int) : ℚ) / 60)).sum /
    ((history.filter (fun a => a.acknowledged)).length : ℚ)

theorem calculate_avg_eq_specMean (l : List Alert)
    (hwf : ∀ a ∈ l, a.acknowledged = true → a.acknowledged_at.isSome) :
    AlertManager.calculate_avg_ack_time l = specMeanAckMinutes l := by
  unfold AlertManager.calculate_avg_ack_time specMeanAckMinutes
  simp only [ack_times_eq_map_filter l hwf]
  by_cases hnil : l.filter (fun a => a.acknowledged) = []
  · simp [hnil]
  · have hmap : ((l.filter (fun a => a.acknowledged)).map (fun a =>
        ((a.acknowledged_at.getD a.timestamp - a.timestamp : Int) : ℚ) / 60)) ≠
          [] := by
      simpa using hnil
    rw [if_neg hmap, if_neg hnil, List.length_map]

/-- C8: `get_alert_statistics()['average_acknowledgment_time']` is the
arithmetic mean, over the acknowledged alerts of the history, of
(acknowledged_at − timestamp) in minutes, and is zero — with no division by
zero — when no alert in the history is acknowledged. The hypothesis records
that acknowledged alerts carry an acknowledgement time, which every
operation of the manager maintains. -/
theorem claim_C8_average_ack_minutes (st : AlertManager)
    (hwf : ∀ a ∈ AlertManager.historyAlerts st,
      a.acknowledged = true → a.acknowledged_at.isSome) :
    (st.get_alert_statistics).average_acknowledgment_time =
      specMeanAckMinutes (AlertManager.historyAlerts st) ∧
    ((AlertManager.historyAlerts st).filter (fun a => a.acknowledged) = [] →
      (st.get_alert_statistics).average_acknowledgment_time = 0) := by
  have key : (st.get_alert_statistics).average_acknowledgment_time =
      specMeanAckMinutes (AlertManager.historyAlerts st) :=
    calculate_avg_eq_specMean (AlertManager.historyAlerts st) hwf
  refine ⟨key, ?_⟩
  intro hempty
  rw [key]
  simp [specMeanAckMinutes, hempty]

/-- First fixture for the statistics scenario: acknowledged two minutes
after creation. -/
def ackedAlert1 : Alert :=
  { alert_id := "STAT-1"
    hazard_id := "HAZ-101"
    severity := AlertSeverity.LOW
    title := "Spill"
    message := "Liquid spill detected."
    timestamp := 0
    acknowledged := true
    acknowledged_by := some "operator"
    acknowledged_at := some 120 }

/-- Second fixture for the statistics scenario: acknowledged four minutes
after creation. -/
def ackedAlert2 : Alert :=
  { alert_id := "STAT-2"
    hazard_id := "HAZ-102"
    severity := AlertSeverity.MEDIUM
    title := "Smoke"
    message := "Smoke detected."
    timestamp := 0
    acknowledged := true
    acknowledged_by := some "operator"
    acknowledged_at := some 240 }

/-- Third fixture for the statistics scenario: never acknowledged. -/
def openAlert : Alert :=
  { alert_id := "STAT-3"
    hazard_id := "HAZ-103"
    severity := AlertSeverity.HIGH
    title := "Blocked exit"
    message := "Exit blocked."
    timestamp := 0 }

/-- A manager whose history holds three alerts of which two are
acknowledged, at +2 and +4 minutes: the specification's statistics
scenario. -/
def statsState : AlertManager :=
  { recipients := []
    store := [ackedAlert1, ackedAlert2, openAlert]
    active_alerts := [("STAT-3", 2)]
    alert_history := [0, 1, 2]
    alert_queue := []
    escalation_config := { enabled := true, timeout := 300, max_escalations := 3 } }

theorem claim_C8_average_ack_minutes_witness :
    (statsState.get_alert_statistics).average_acknowledgment_time = 3 ∧
    (AlertManager.init.get_alert_statistics).average_acknowledgment_time = 0 := by
  constructor
  · rw [(claim_C8_average_ack_minutes statsState (by decide)).1]
    have h1 : (AlertManager.historyAlerts statsState).filter
        (fun a => a.acknowledged) = [ackedAlert1, ackedAlert2] := rfl
    unfold specMeanAckMinutes
    rw [h1, if_neg (by decide)]
    have h2 : ([ackedAlert1, ackedAlert2].map (fun a =>
        ((a.acknowledged_at.getD a.timestamp - a.timestamp : Int) : ℚ) / 60)) =
        [2, 4] := by
      norm_num [ackedAlert1, ackedAlert2]
    rw [h2]
    norm_num
  · exact (claim_C8_average_ack_minutes AlertManager.init (by decide)).2
      (by decide)

/-- C4: submitting an alert with a fresh id places it in the active set
exactly once under its id (pointing at the submitted alert object) and in
the history exactly once; a subsequent acknowledge removes it from the
active set while the history still holds it exactly once, now with
`acknowledged = True`, `acknowledged_by` the actor, and `acknowledged_at`
set. The hypotheses say the id was not previously submitted (absent from
history and active set) and that history references point into the store,
both true of every reachable state. -/
theorem claim_C4_submit_then_acknowledge (st : AlertManager) (a : Alert)
    (who : String) (now : Int)
    (hclosed : ∀ r ∈ st.alert_history, r < st.store.length)
    (hfresh_hist : ∀ b ∈ AlertManager.historyAlerts st, b.alert_id ≠ a.alert_id)
    (hfresh_active : dictGet st.active_alerts a.alert_id = none) :
    (dictGet (st.send_alert a).active_alerts a.alert_id =
        some st.store.length ∧
      (st.send_alert a).store[st.store.length]? = some a ∧
      dictCount (st.send_alert a).active_alerts a.alert_id = 1) ∧
    (AlertManager.historyAlerts (st.send_alert a)).filter
        (fun b => b.alert_id = a.alert_id) = [a] ∧
    dictGet ((st.send_alert a).acknowledge_alert a.alert_id who now).active_alerts
        a.alert_id = none ∧
    (AlertManager.historyAlerts
        ((st.send_alert a).acknowledge_alert a.alert_id who now)).filter
        (fun b => b.alert_id = a.alert_id) =
      [{ a with
          acknowledged := true
          acknowledged_by := some who
          acknowledged_at := some now }] := by
  have h_active1 : dictGet (st.send_alert a).active_alerts a.alert_id =
      some st.store.length := by
    show dictGet (dictSet st.active_alerts a.alert_id st.store.length)
        a.alert_id = some st.store.length
    exact dictGet_dictSet_self st.active_alerts a.alert_id st.store.length
  have h_store1 : (st.send_alert a).store[st.store.length]? = some a := by
    show (st.store ++ [a])[st.store.length]? = some a
    simp
  have h_count : dictCount (st.send_alert a).active_alerts a.alert_id = 1 := by
    show dictCount (dictSet st.active_alerts a.alert_id st.store.length)
        a.alert_id = 1
    exact dictCount_dictSet_fresh st.active_alerts a.alert_id st.store.length
      hfresh_active
  have h_filter0 : (AlertManager.historyAlerts st).filter
      (fun b => b.alert_id = a.alert_id) = [] := by
    rw [List.filter_eq_nil_iff]
    intro b hb
    simp [hfresh_hist b hb]
  have h_hist1 : AlertManager.historyAlerts (st.send_alert a) =
      AlertManager.historyAlerts st ++ [a] := by
    show (st.alert_history ++ [st.store.length]).filterMap
        (fun r => (st.store ++ [a])[r]?) =
      st.alert_history.filterMap (fun r => st.store[r]?) ++ [a]
    rw [List.filterMap_append]
    congr 1
    · apply List.filterMap_congr
      intro r hr
      rw [List.getElem?_append, if_pos (hclosed r hr)]
    · simp
  have h_filter1 : (AlertManager.historyAlerts (st.send_alert a)).filter
      (fun b => b.alert_id = a.alert_id) = [a] := by
    rw [h_hist1, List.filter_append, h_filter0]
    simp
  have heq2 := acknowledge_alert_eq_of_active (st.send_alert a) a.alert_id
    who now st.store.length a h_active1 h_store1
  have h_active2 : dictGet
      ((st.send_alert a).acknowledge_alert a.alert_id who now).active_alerts
      a.alert_id = none := by
    rw [heq2]
    show dictGet (dictRemove (st.send_alert a).active_alerts a.alert_id)
        a.alert_id = none
    exact dictGet_dictRemove_self (st.send_alert a).active_alerts a.alert_id
  have h_hist2 : AlertManager.historyAlerts
      ((st.send_alert a).acknowledge_alert a.alert_id who now) =
      AlertManager.historyAlerts st ++
        [{ a with
            acknowledged := true
            acknowledged_by := some who
            acknowledged_at := some now }] := by
    rw [heq2]
    show (st.alert_history ++ [st.store.length]).filterMap
        (fun r => ((st.store ++ [a]).set st.store.length
          { a with
              acknowledged := true
              acknowledged_by := some who
              acknowledged_at := some now })[r]?) =
      st.alert_history.filterMap (fun r => st.store[r]?) ++ [_]
    rw [List.filterMap_append]
    congr 1
    · apply List.filterMap_congr
      intro r hr
      have hlt := hclosed r hr
      rw [List.getElem?_set_ne (Nat.ne_of_gt hlt), List.getElem?_append,
        if_pos hlt]
    · have hset : ((st.store ++ [a]).set st.store.length
          { a with
              acknowledged := true
              acknowledged_by := some who
              acknowledged_at := some now })[st.store.length]? =
          some { a with
              acknowledged := true
              acknowledged_by := some who
              acknowledged_at := some now } := by
        apply List.getElem?_set_self
        simp
      simp [hset]
  have h_filter2 : (AlertManager.historyAlerts
      ((st.send_alert a).acknowledge_alert a.alert_id who now)).filter
      (fun b => b.alert_id = a.alert_id) =
      [{ a with
          acknowledged := true
          acknowledged_by := some who
          acknowledged_at := some now }] := by
    rw [h_hist2, List.filter_append, h_filter0]
    simp
  exact ⟨⟨h_active1, h_store1, h_count⟩, h_filter1, h_active2, h_filter2⟩

theorem claim_C4_submit_then_acknowledge_witness :
    dictGet (AlertManager.init.send_alert testAlert).active_alerts
        "TEST-001" = some 0 ∧
    dictGet ((AlertManager.init.send_alert testAlert).acknowledge_alert
        "TEST-001" "operator" 120).active_alerts "TEST-001" = none := by
  have h := claim_C4_submit_then_acknowledge AlertManager.init testAlert
    "operator" 120 (by decide) (by decide) (by decide)
  exact ⟨h.1.1, h.2.2.1⟩
